import Mathlib

/-!
Verification of the query-answering core of the nxautorag repository
(`api/query.py` and `utils/vectorstore.py`), shallowly embedded in Lean.

External effects (the configuration file on disk, the vector store
directory, the `transformers` / `HuggingFaceHub` / Azure constructors,
FAISS loading, and the runtime behaviour of a generation backend) are
modelled by an explicit environment record `Env`; each source function is
translated as a pure function of that environment.
-/

namespace NxAutoRAG

/-! ### Python string primitives

The source manipulates Python strings with `.strip()`, `s.split(sep)[-1]`,
slicing `s[len(p):]` and the substring test `sep in s`.  We model Python
strings as `List Char` and translate those primitives faithfully. -/

/-- Characters removed by Python `str.strip()` (ASCII whitespace). -/
def isPySpace (c : Char) : Bool :=
  c == ' ' || c == '\t' || c == '\n' || c == '\r' || c == '\x0b' || c == '\x0c'

/-- Python `str.strip()`: drop leading and trailing whitespace. -/
def pyStrip (xs : List Char) : List Char :=
  ((xs.dropWhile isPySpace).reverse.dropWhile isPySpace).reverse

/-- `pyStrip` lifted to `String`. -/
def pyStripStr (s : String) : String :=
  ⟨pyStrip s.data⟩

/-- Python `str.lower()` (ASCII). -/
def pyToLower (xs : List Char) : List Char :=
  xs.map Char.toLower

/-- Split off the first occurrence of `sep` (nonempty) in `xs`: returns
`some (before, after)`, or `none` when `sep` does not occur. -/
def splitFirst (sep : List Char) : List Char → Option (List Char × List Char)
  | [] => none
  | c :: rest =>
    if sep = [] then none
    else if sep.isPrefixOf (c :: rest) then some ([], (c :: rest).drop sep.length)
    else (splitFirst sep rest).map fun pq => (c :: pq.1, pq.2)

/-- Python `sep in s` (substring test) for nonempty `sep`. -/
def occurs (sep xs : List Char) : Bool :=
  (splitFirst sep xs).isSome

theorem splitFirst_length {sep : List Char} :
    ∀ {xs p q : List Char}, splitFirst sep xs = some (p, q) → q.length < xs.length := by
  intro xs
  induction xs with
  | nil => intro p q h; simp [splitFirst] at h
  | cons c rest ih =>
    intro p q h
    rw [splitFirst] at h
    split at h
    · exact absurd h (by simp)
    · rename_i hsep
      split at h
      · injection h with h2
        cases h2
        rw [List.length_drop]
        exact Nat.sub_lt (by simp) (List.length_pos.mpr hsep)
      · rcases Option.map_eq_some'.mp h with ⟨⟨p', q'⟩, hsf, heq⟩
        cases heq
        simpa using Nat.lt_succ_of_lt (ih hsf)

theorem splitFirst_append {sep : List Char} :
    ∀ {xs p q : List Char}, splitFirst sep xs = some (p, q) → xs = p ++ sep ++ q := by
  intro xs
  induction xs with
  | nil => intro p q h; simp [splitFirst] at h
  | cons c rest ih =>
    intro p q h
    rw [splitFirst] at h
    split at h
    · exact absurd h (by simp)
    · split at h
      · rename_i hpre
        injection h with h2
        cases h2
        rcases List.isPrefixOf_iff_prefix.mp hpre with ⟨t, ht⟩
        have hdrop : (c :: rest).drop sep.length = t := by
          rw [← ht, List.drop_left]
        rw [hdrop, ← ht]
        simp
      · rcases Option.map_eq_some'.mp h with ⟨⟨p', q'⟩, hsf, heq⟩
        cases heq
        have := ih hsf
        simp [this]

/-- Python `s.split(sep)` for nonempty `sep`: the list of chunks between
the non-overlapping left-to-right occurrences of `sep`. -/
def pySplit (sep xs : List Char) : List (List Char) :=
  match h : splitFirst sep xs with
  | none => [xs]
  | some (p, q) => p :: pySplit sep q
termination_by xs.length
decreasing_by exact splitFirst_length h

/-- The suffix of `xs` after the last occurrence of `sep` (equals `xs`
when `sep` does not occur). -/
def afterLast (sep xs : List Char) : List Char :=
  match h : splitFirst sep xs with
  | none => xs
  | some (_, q) => afterLast sep q
termination_by xs.length
decreasing_by exact splitFirst_length h

theorem pySplit_ne_nil (sep xs : List Char) : pySplit sep xs ≠ [] := by
  rw [pySplit]
  split <;> simp

theorem afterLast_of_not_occurs {sep xs : List Char} (h : occurs sep xs = false) :
    afterLast sep xs = xs := by
  rw [afterLast]
  split
  · rfl
  · rename_i p q hsf
    rw [occurs, hsf] at h
    simp at h

theorem pySplit_of_not_occurs {sep xs : List Char} (h : occurs sep xs = false) :
    pySplit sep xs = [xs] := by
  rw [pySplit]
  split
  · rfl
  · rename_i p q hsf
    rw [occurs, hsf] at h
    simp at h

/-- The last chunk of Python `split` is the suffix after the last
occurrence of the separator. -/
theorem pySplit_getLastD (sep xs : List Char) :
    (pySplit sep xs).getLastD [] = afterLast sep xs := by
  rw [pySplit, afterLast]
  split
  · rfl
  · rename_i p q hsf
    have hne := pySplit_ne_nil sep q
    have : (p :: pySplit sep q).getLastD [] = (pySplit sep q).getLastD [] := by
      rcases List.exists_cons_of_ne_nil hne with ⟨a, l, hl⟩
      rw [hl]
      simp [List.getLastD_cons]
    rw [this]
    exact pySplit_getLastD sep q
termination_by xs.length
decreasing_by exact splitFirst_length (by assumption)

theorem afterLast_eq_of_splitFirst {sep xs p q : List Char}
    (h : splitFirst sep xs = some (p, q)) : afterLast sep xs = afterLast sep q := by
  rw [afterLast]
  split
  · rename_i hnone
    rw [hnone] at h
    exact absurd h (by simp)
  · rename_i p' q' hsf
    rw [h] at hsf
    injection hsf with h2
    injection h2 with hp hq
    rw [hq]

/-- Characterization of `afterLast` when the separator occurs: `xs`
decomposes as a prefix, the separator, and `afterLast`, and the separator
does not occur in `afterLast` (so it is indeed the part after the *last*
occurrence). -/
theorem afterLast_spec {sep : List Char} (xs : List Char) (hocc : occurs sep xs = true) :
    ∃ p, xs = p ++ sep ++ afterLast sep xs ∧ occurs sep (afterLast sep xs) = false := by
  rw [occurs] at hocc
  obtain ⟨⟨p, q⟩, hsf⟩ := Option.isSome_iff_exists.mp hocc
  have hxs : xs = p ++ sep ++ q := splitFirst_append hsf
  have hAL : afterLast sep xs = afterLast sep q := afterLast_eq_of_splitFirst hsf
  by_cases hq : occurs sep q = true
  · obtain ⟨p', hq1, hq2⟩ := afterLast_spec q hq
    refine ⟨p ++ sep ++ p', ?_, ?_⟩
    · rw [hAL, hxs]
      conv_lhs => rw [hq1]
      simp [List.append_assoc]
    · rw [hAL]
      exact hq2
  · rw [Bool.not_eq_true] at hq
    have hALq : afterLast sep q = q := afterLast_of_not_occurs hq
    refine ⟨p, ?_, ?_⟩
    · rw [hAL, hALq]
      exact hxs
    · rw [hAL, hALq]
      exact hq
termination_by xs.length
decreasing_by exact splitFirst_length hsf

/-! ### Data model

`api/query.py` and `utils/vectorstore.py` read the persisted configuration
file `./configs/latest.json`, the vector store directory `./vectorstore`,
and call external constructors (`transformers.pipeline`, `HuggingFaceHub`,
`AzureOpenAI`, the embedding classes, `FAISS.load_local`) whose outcomes
are environment-determined.  `Env` packages all of that. -/

/-- The parsed `llm_config` object of `./configs/latest.json`.  Each field
is the result of the corresponding `dict.get` lookup: `none` models a
missing key (Python `None`). -/
structure LLMFileConfig where
  llm_provider : Option String
  llm_model : Option String
  api_token : Option String
  azure_endpoint : Option String
  azure_deployment : Option String
  api_version : Option String
deriving DecidableEq

/-- State of `./configs/latest.json` as observed by a read:
absent, unreadable/malformed (any exception while reading or indexing),
readable but with no `llm_config` key, or readable with one. -/
inductive ConfigFileState
  | absent
  | unreadable
  | noLLMConfig
  | withLLM (c : LLMFileConfig)
deriving DecidableEq

/-- The in-process `global_config` dict imported from `api.ingestion`
(whose module is not part of the analyzed sources).  `get_llm` only reads
it through `.get("provider", "local")`, `.get("model", "google/flan-t5-base")`
and `.get("token", "")`; each field below is the result of that lookup
(`none` models a key present with value `None`; a missing key is modelled
by the field holding the lookup's default). -/
structure GlobalConfig where
  provider : Option String
  model : Option String
  token : Option String
deriving DecidableEq

/-- Python truthiness of an optional string (`None` and `""` are falsy). -/
def pyTruthy : Option String → Bool
  | none => false
  | some s => !(s == "")

/-- `str(x)` of an optional string in an f-string (`None` prints "None"). -/
def pyShow : Option String → String
  | none => "None"
  | some s => s

/-- A `fastapi.HTTPException` value. -/
structure HTTPError where
  status : Nat
  detail : String
deriving DecidableEq

/-- `str(e)` of an `HTTPException` (starlette formats status and detail). -/
def httpStr (e : HTTPError) : String :=
  toString e.status ++ ": " ++ e.detail

/-- Identity of a constructed generation backend:
`HFWrapper` around a `transformers` pipeline, a `HuggingFaceHub` remote
client, or an `AzureOpenAI` client. -/
inductive LLMBackend
  | hfWrapper (task : String) (model : String) (is_t5 : Bool)
  | hfHub (repoId : Option String) (token : String)
  | azure (deployment : Option String) (model : Option String)
deriving DecidableEq

/-- An attempted external backend construction, in program order. -/
inductive CallEvent
  | pipelineCall (task : String) (model : Option String)
  | hubCall (repoId : Option String) (token : String)
  | azureCall (deployment : Option String)
deriving DecidableEq

def CallEvent.isRemoteHub : CallEvent → Bool
  | .hubCall _ _ => true
  | _ => false

/-- Identity of a constructed embeddings object (`utils/vectorstore.py`). -/
inductive Embeddings
  | azureAda
  | azureDep (deployment : Option String)
  | hf (model : String)
  | openai (model : String)
  | fake (size : Nat)
deriving DecidableEq

/-- An in-memory FAISS store: `docs q` is the list of `page_content`
strings its retriever returns for question `q`, in rank order. -/
structure Store where
  docs : String → List String

/-- `vs.as_retriever(search_kwargs={"k": 4})`. -/
structure Retriever where
  store : Store
  k : Nat

/-- Environment: disk state and outcomes of all external calls, assumed
stable for the duration of one function run. -/
structure Env where
  configFile : ConfigFileState
  globalConfig : GlobalConfig
  /-- Outcome of `transformers.pipeline(task, model=model, ...)`. -/
  pipelineOutcome : String → Option String → Except String Unit
  /-- Outcome of `HuggingFaceHub(repo_id, huggingfacehub_api_token, ...)`. -/
  hubOutcome : Option String → String → Except String Unit
  /-- Outcome of `AzureOpenAI(deployment_name, ...)`. -/
  azureOutcome : Option String → Except String Unit
  /-- Whether `os.path.exists("./vectorstore")`. -/
  vectorstoreExists : Bool
  /-- Outcome of `FAISS.load_local("./vectorstore", embeddings, ...)`. -/
  faissLoad : Embeddings → Except String Store
  /-- Outcome of `AzureOpenAIEmbeddings(azure_deployment="text-embedding-ada-002")`. -/
  azureEmbAda : Except String Unit
  /-- Outcome of `AzureOpenAIEmbeddings(azure_deployment=<llm deployment>)`. -/
  azureEmbDep : Option String → Except String Unit
  /-- Outcome of `HuggingFaceEmbeddings(model_name=DEFAULT_EMBEDDING_MODEL)`. -/
  hfEmb : Except String Unit
  /-- Outcome of `OpenAIEmbeddings(model="text-embedding-ada-002")`. -/
  openaiEmb : Except String Unit
  /-- Runtime behaviour of a backend: `generate b prompt` is what invoking
  backend `b` on `prompt` yields (`error` = the call raises). -/
  generate : LLMBackend → String → Except String String

/-! ### `utils/vectorstore.py` -/

def DEFAULT_EMBEDDING_MODEL : String := "sentence-transformers/all-MiniLM-L6-v2"

/-- `get_embeddings` (utils/vectorstore.py lines 11-56): Azure embeddings
when the file config has an azure provider with a token (trying the
standard deployment then the chat deployment), else HuggingFace, else
OpenAI, else `FakeEmbeddings(size=384)`; every failure falls through. -/
def get_embeddings (env : Env) : Embeddings :=
  let azureStep : Option Embeddings :=
    match env.configFile with
    | .withLLM c =>
      if pyTruthy c.api_token && (c.llm_provider == some "azure") then
        match env.azureEmbAda with
        | .ok _ => some .azureAda
        | .error _ =>
          match env.azureEmbDep c.azure_deployment with
          | .ok _ => some (.azureDep c.azure_deployment)
          | .error _ => none
      else none
    | _ => none
  match azureStep with
  | some e => e
  | none =>
    match env.hfEmb with
    | .ok _ => .hf DEFAULT_EMBEDDING_MODEL
    | .error _ =>
      match env.openaiEmb with
      | .ok _ => .openai "text-embedding-ada-002"
      | .error _ => .fake 384

/-- `load_vectorstore` (utils/vectorstore.py lines 63-69): `none` when the
path is absent; otherwise the FAISS load, whose exception (if any)
propagates to the caller (hence `Except`). -/
def load_vectorstore (env : Env) : Except String (Option Store) :=
  if !env.vectorstoreExists then .ok none
  else (env.faissLoad (get_embeddings env)).map some

/-! ### `api/query.py` -/

/-- `HFWrapper._call` (api/query.py lines 40-48): for a `text2text` (T5)
pipeline the generated text is returned stripped; otherwise the pipeline
echoes the prompt and only the stripped suffix beyond the prompt length
is returned. -/
def hfWrapperCall (is_t5 : Bool) (pipelineOut prompt : List Char) : List Char :=
  if is_t5 then pyStrip pipelineOut
  else pyStrip (pipelineOut.drop prompt.length)

def gatedModel : String := "mistralai/Mixtral-8x7B-Instruct-v0.1"

def fallbackModel : String := "google/flan-t5-base"

/-- The backend built by the hf fallback path:
`HFWrapper(pipeline=text2text(fallback_model), is_t5=True)`. -/
def flanWrapper : LLMBackend := .hfWrapper "text2text-generation" fallbackModel true

/-- `(provider, model, token)` as computed by api/query.py lines 57-82:
if the config file is readable and has an `llm_config` key, the
six-key dict built from it is non-empty (truthy) and its lookups win;
otherwise `global_config`'s lookups are used. -/
def resolvedTriple (env : Env) : Option String × Option String × Option String :=
  match env.configFile with
  | .withLLM c => (c.llm_provider, c.llm_model, c.api_token)
  | _ => (env.globalConfig.provider, env.globalConfig.model, env.globalConfig.token)

def resolvedProvider (env : Env) : Option String := (resolvedTriple env).1

def resolvedModel (env : Env) : Option String := (resolvedTriple env).2.1

/-- The token after line 85-86's `token.strip()` (a no-op on `None`/`""`). -/
def strippedToken (env : Env) : Option String :=
  ((resolvedTriple env).2.2).map pyStripStr

/-- Python message of `None.lower()` (api/query.py line 106 when the
resolved model is `None`). -/
def noneLowerMsg : String := "NoneType object has no attribute lower"

/-- The `provider == "local"` branch of `get_llm` (api/query.py lines
90-110): build a `text-generation` pipeline and wrap it; a construction
failure (or `model.lower()` on `None`) raises an `HTTPException`. -/
def get_llm_local (env : Env) (model : Option String) :
    Except HTTPError LLMBackend × List CallEvent :=
  match env.pipelineOutcome "text-generation" model with
  | .error e =>
    (.error ⟨500, "Error loading local model: " ++ e⟩,
     [.pipelineCall "text-generation" model])
  | .ok _ =>
    match model with
    | none =>
      (.error ⟨500, "Error loading local model: " ++ noneLowerMsg⟩,
       [.pipelineCall "text-generation" model])
    | some m =>
      (.ok (.hfWrapper "text-generation" m (occurs "t5".data (pyToLower m.data))),
       [.pipelineCall "text-generation" model])

/-- The `provider in ["hf_free", "hf_paid"]` branch of `get_llm`
(api/query.py lines 112-167).  With no token or the gated Mixtral model
the remote call is skipped and the `text2text` fallback pipeline is built
immediately (if that raises inside the first `try`, the `except` at line
145 builds it once more before raising); otherwise `HuggingFaceHub` is
attempted and any exception falls back to the same pipeline. -/
def get_llm_hf (env : Env) (model token : Option String) :
    Except HTTPError LLMBackend × List CallEvent :=
  if !pyTruthy token || model == some gatedModel then
    match env.pipelineOutcome "text2text-generation" (some fallbackModel) with
    | .ok _ =>
      (.ok flanWrapper, [.pipelineCall "text2text-generation" (some fallbackModel)])
    | .error _ =>
      match env.pipelineOutcome "text2text-generation" (some fallbackModel) with
      | .ok _ =>
        (.ok flanWrapper,
         [.pipelineCall "text2text-generation" (some fallbackModel),
          .pipelineCall "text2text-generation" (some fallbackModel)])
      | .error e2 =>
        (.error ⟨500, "Error loading fallback model: " ++ e2⟩,
         [.pipelineCall "text2text-generation" (some fallbackModel),
          .pipelineCall "text2text-generation" (some fallbackModel)])
  else
    match env.hubOutcome model (token.getD "") with
    | .ok _ =>
      (.ok (.hfHub model (token.getD "")), [.hubCall model (token.getD "")])
    | .error _ =>
      match env.pipelineOutcome "text2text-generation" (some fallbackModel) with
      | .ok _ =>
        (.ok flanWrapper,
         [.hubCall model (token.getD ""),
          .pipelineCall "text2text-generation" (some fallbackModel)])
      | .error e2 =>
        (.error ⟨500, "Error loading fallback model: " ++ e2⟩,
         [.hubCall model (token.getD ""),
          .pipelineCall "text2text-generation" (some fallbackModel)])

/-- The `provider == "azure"` branch of `get_llm` (api/query.py lines
169-191): construct the `AzureOpenAI` client; a failure raises. -/
def get_llm_azure (env : Env) (dep model : Option String) :
    Except HTTPError LLMBackend × List CallEvent :=
  match env.azureOutcome dep with
  | .ok _ => (.ok (.azure dep model), [.azureCall dep])
  | .error e =>
    (.error ⟨500, "Error loading Azure OpenAI model: " ++ e⟩, [.azureCall dep])

/-- `get_llm` (api/query.py lines 56-194), returning the result (an
`HTTPException` value when the function raises) together with the list of
external construction attempts in program order. -/
def get_llm (env : Env) : Except HTTPError LLMBackend × List CallEvent :=
  let provider := resolvedProvider env
  let model := resolvedModel env
  let token := strippedToken env
  if provider == some "local" then
    get_llm_local env model
  else if provider == some "hf_free" || provider == some "hf_paid" then
    get_llm_hf env model token
  else if provider == some "azure" then
    let dep :=
      match env.configFile with
      | .withLLM c => c.azure_deployment
      | _ => none
    get_llm_azure env dep model
  else
    (.error ⟨400, "Unsupported LLM provider: " ++ pyShow provider⟩, [])

/-- `get_retriever` (api/query.py lines 197-213): `none` when the vector
store directory is absent or the load raises; otherwise the loaded store
as a `k = 4` retriever. -/
def get_retriever (env : Env) : Option Retriever :=
  if !env.vectorstoreExists then none
  else
    match env.faissLoad (get_embeddings env) with
    | .ok s => some ⟨s, 4⟩
    | .error _ => none

/-- The prompt template (api/query.py lines 236-247) with `{question}` and
`{context}` substituted.  The surrounding indentation and the final
"Answer:" cue are part of the literal. -/
def assemblePrompt (question context : String) : String :=
  "\n        You are an AI assistant for question-answering tasks. Use the following pieces of retrieved context to answer the user\x27s question. \n        If you don\x27t know the answer or if the answer is not contained in the provided context, just say that you don\x27t know.\n        Use only the information provided in the context to answer the question. Do not use prior knowledge.\n        Keep the answer concise - no more than three sentences maximum.\n        \n        Question: " ++ question ++ " \n        \n        Context: " ++ context ++ " \n        \n        Answer:\n        "

/-- `format_docs` (api/query.py lines 253-254). -/
def format_docs (docs : List String) : String :=
  String.intercalate "\n\n" docs

/-- The LangChain runnable built by `create_rag_chain`: either a constant
error-message runnable or the retrieval-augmented chain with its captured
retriever and LLM. -/
inductive Chain
  | message (msg : String)
  | rag (retriever : Retriever) (llm : LLMBackend)

def noDocsMsg : String :=
  "No documents have been ingested yet. Please ingest some documents first."

/-- `create_rag_chain` (api/query.py lines 216-267): resolves the
retriever and the LLM once; any exception (including the
`HTTPException` that `get_llm` may raise) becomes a constant-message
chain. -/
def create_rag_chain (env : Env) : Chain :=
  match get_retriever env with
  | none => .message noDocsMsg
  | some r =>
    match (get_llm env).1 with
    | .error e => .message ("Error creating RAG chain: " ++ httpStr e)
    | .ok llm => .rag r llm

/-- `chain.invoke(question)`: a message chain returns its message; the RAG
chain retrieves with its captured retriever, assembles the prompt and
calls its captured LLM (whose runtime failure propagates). -/
def chainInvoke (env : Env) (chain : Chain) (question : String) : Except String String :=
  match chain with
  | .message m => .ok m
  | .rag r llm =>
    env.generate llm (assemblePrompt question (format_docs (r.store.docs question)))

/-- The answer clean-up of the `/query` endpoint (api/query.py lines
282-287): when the raw output contains "Answer:", keep only the stripped
part after the last occurrence; otherwise keep the raw output unchanged. -/
def extract_answer_list (raw : List Char) : List Char :=
  if occurs "Answer:".data raw then pyStrip ((pySplit "Answer:".data raw).getLastD [])
  else raw

def extract_answer (raw : String) : String :=
  ⟨extract_answer_list raw.data⟩

structure QueryRequest where
  question : String
  include_sources : Bool := false

/-- Response of the `/query` endpoint: a success dict
`{"answer": ..., "sources"?: ...}` or a handled error dict
`{"status": "error", "message": ...}`. -/
inductive Response
  | ok (answer : String) (sources : Option (List String))
  | error (message : String)
deriving DecidableEq

def Response.sourcesField : Response → Option (List String)
  | .ok _ s => s
  | .error _ => none

def Response.isOk : Response → Bool
  | .ok _ _ => true
  | .error _ => false

def noStoreMsg : String :=
  "No vector store available. Please ingest documents first."

/-- Python message of `None.get_relevant_documents(...)` (api/query.py
line 294 in the unreachable case where the second `get_retriever` call
returns `None`). -/
def noneRetrieverMsg : String :=
  "NoneType object has no attribute get_relevant_documents"

/-- The `/query` endpoint (api/query.py lines 273-304).  `chain` is the
module-level `rag_chain` built once at import time; `env` is the world at
request time.  The entire body is wrapped in `try/except`, so the
endpoint never raises. -/
def query (chain : Chain) (env : Env) (req : QueryRequest) : Response :=
  match get_retriever env with
  | none => .error noStoreMsg
  | some _ =>
    match chainInvoke env chain req.question with
    | .error e => .error e
    | .ok raw =>
      let answer := extract_answer raw
      match get_retriever env with
      | none => .error noneRetrieverMsg
      | some r =>
        let docs := r.store.docs req.question
        if req.include_sources then .ok answer (some docs)
        else .ok answer none

/-- The body of the `/rag` endpoint's input: the result of
`input_data.get("input", {}).get("question", "")` before the empty-string
default, i.e. `none` models a missing key or explicit `None`. -/
structure RagInput where
  question : Option String

/-- Response of the `/rag` endpoint. -/
inductive RagResponse
  | err (message : String)
  | output (s : String)
deriving DecidableEq

/-- The `/rag` endpoint (api/query.py lines 307-324). -/
def rag (chain : Chain) (env : Env) (input : RagInput) : RagResponse :=
  if !pyTruthy input.question then .err "No question provided"
  else
    match query chain env ⟨input.question.getD "", false⟩ with
    | .ok a _ => .output a
    | .error m => .output ("Error: " ++ m)

/-! ### The embedding resolver's fallback ladder, as data

The spec describes `get_embeddings` as an ordered list of constructions
where the first success wins.  `embLadder` is that list (the azure steps
are present exactly when the file config selects azure with a token; the
final deterministic stub always succeeds) and `firstOk` takes the first
success. -/

def firstOk {α : Type} : List (Except String α) → Option α
  | [] => none
  | .ok a :: _ => some a
  | .error _ :: rest => firstOk rest

def embLadder (env : Env) : List (Except String Embeddings) :=
  (match env.configFile with
   | .withLLM c =>
     if pyTruthy c.api_token && (c.llm_provider == some "azure") then
       [env.azureEmbAda.map (fun _ => Embeddings.azureAda),
        (env.azureEmbDep c.azure_deployment).map
          (fun _ => Embeddings.azureDep c.azure_deployment)]
     else []
   | _ => []) ++
  [env.hfEmb.map (fun _ => Embeddings.hf DEFAULT_EMBEDDING_MODEL),
   env.openaiEmb.map (fun _ => Embeddings.openai "text-embedding-ada-002"),
   Except.ok (Embeddings.fake 384)]

/-! ### Concrete fixture environments (used by witnesses and
counterexamples) -/

/-- An `llm_config` object with the three interesting fields set. -/
def cfgWith (prov model token : Option String) : LLMFileConfig :=
  { llm_provider := prov, llm_model := model, api_token := token,
    azure_endpoint := none, azure_deployment := none, api_version := none }

/-- A benign base world: no config file, empty `global_config` (so its
lookups yield the code's defaults), no vector store, all constructions
succeed. -/
def baseEnv : Env :=
  { configFile := .absent
    globalConfig := { provider := some "local", model := some "google/flan-t5-base",
                      token := some "" }
    pipelineOutcome := fun _ _ => .ok ()
    hubOutcome := fun _ _ => .ok ()
    azureOutcome := fun _ => .ok ()
    vectorstoreExists := false
    faissLoad := fun _ => .error "no store"
    azureEmbAda := .ok ()
    azureEmbDep := fun _ => .ok ()
    hfEmb := .ok ()
    openaiEmb := .ok ()
    generate := fun _ _ => .ok "ok" }

/-- C1: the world at module-import time — provider `local`, model `m0`,
vector store loads `store0`. -/
def store0 : Store := ⟨fun _ => ["d0"]⟩

/-- C1: the vector store present at request time. -/
def store1 : Store := ⟨fun _ => ["d1"]⟩

/-- The backend `get_llm` resolves at import time in the C1 scenario. -/
def backend0 : LLMBackend := .hfWrapper "text-generation" "m0" false

/-- The backend `get_llm` resolves at request time in the C1 scenario. -/
def backend1 : LLMBackend := .hfWrapper "text-generation" "m1" false

def env0 : Env :=
  { baseEnv with
    configFile := .withLLM (cfgWith (some "local") (some "m0") none)
    vectorstoreExists := true
    faissLoad := fun _ => .ok store0 }

/-- C1: the world after a configuration save (model now `m1`) and a fresh
ingestion (`store1`); generation output records which backend ran (`B0` /
`B1`) and whether the prompt was assembled from the old store's passages
(`S0`) or not (`S1`). -/
def env1 : Env :=
  { baseEnv with
    configFile := .withLLM (cfgWith (some "local") (some "m1") none)
    vectorstoreExists := true
    faissLoad := fun _ => .ok store1
    generate := fun b p =>
      .ok ((if b == backend0 then "B0" else "B1") ++
           (if p == assemblePrompt "q" (format_docs (store0.docs "q")) then "S0" else "S1")) }

/-- C2: provider `local` whose pipeline construction raises. -/
def envC2 : Env :=
  { baseEnv with
    configFile := .withLLM (cfgWith (some "local") (some "gpt2") none)
    pipelineOutcome := fun _ _ => .error "boom" }

/-- C2 (amended witness): `hf_free` requesting the gated model. -/
def envC2w : Env :=
  { baseEnv with configFile := .withLLM (cfgWith (some "hf_free") (some gatedModel) (some "t")) }

/-- C4: `hf_free` with no token. -/
def envC4a : Env :=
  { baseEnv with configFile := .withLLM (cfgWith (some "hf_free") (some "m") none) }

/-- C4: `hf_paid` with a token and a non-gated model, whose remote call
raises. -/
def envC4b : Env :=
  { baseEnv with
    configFile := .withLLM (cfgWith (some "hf_paid") (some "m") (some "tk"))
    hubOutcome := fun _ _ => .error "denied" }

/-- C6: a present vector store with two retrievable passages. -/
def storeC6 : Store := ⟨fun _ => ["p1", "p2"]⟩

def envC6 : Env :=
  { baseEnv with vectorstoreExists := true, faissLoad := fun _ => .ok storeC6 }

/-- C10: a present vector store with one retrievable passage. -/
def storeC10 : Store := ⟨fun _ => ["s"]⟩

def envC10 : Env :=
  { baseEnv with vectorstoreExists := true, faissLoad := fun _ => .ok storeC10 }

/-- C9: an unsupported provider string. -/
def envC9 : Env :=
  { baseEnv with configFile := .withLLM (cfgWith (some "foo") none none) }

/-! ### Claims -/

/-- C3 (counterexample): the claim says that a raw output *without* the
"Answer:" marker is returned trimmed of surrounding whitespace; the code
(api/query.py line 283, the untaken branch of line 286) returns it
unchanged, so on `" Paris."` the two differ. -/
theorem claim_C3_counterexample :
    occurs "Answer:".data " Paris.".data = false ∧
    extract_answer " Paris." = " Paris." ∧
    extract_answer " Paris." ≠ pyStripStr " Paris." := by
  refine ⟨by decide, by decide, by decide⟩

/-- C3 (amended): if the raw output contains "Answer:", the extractor
returns the substring after the last occurrence of the marker, trimmed of
surrounding whitespace; otherwise it returns the raw string *unchanged*
(not trimmed). -/
theorem claim_C3 (raw : List Char) :
    (occurs "Answer:".data raw = true →
      extract_answer_list raw = pyStrip (afterLast "Answer:".data raw) ∧
      ∃ p, raw = p ++ "Answer:".data ++ afterLast "Answer:".data raw ∧
        occurs "Answer:".data (afterLast "Answer:".data raw) = false) ∧
    (occurs "Answer:".data raw = false → extract_answer_list raw = raw) := by
  constructor
  · intro h
    refine ⟨?_, afterLast_spec raw h⟩
    rw [extract_answer_list, if_pos h, pySplit_getLastD]
  · intro h
    rw [extract_answer_list, if_neg (by rw [h]; exact Bool.false_ne_true)]

/-- C3 (witness): both branches of the amended claim at concrete inputs
(the spec's own examples). -/
theorem claim_C3_witness :
    (extract_answer_list "Context...\nAnswer: Paris.".data =
        pyStrip (afterLast "Answer:".data "Context...\nAnswer: Paris.".data) ∧
      ∃ p, "Context...\nAnswer: Paris.".data =
          p ++ "Answer:".data ++ afterLast "Answer:".data "Context...\nAnswer: Paris.".data ∧
        occurs "Answer:".data
          (afterLast "Answer:".data "Context...\nAnswer: Paris.".data) = false) ∧
    extract_answer_list "Paris.".data = "Paris.".data :=
  ⟨(claim_C3 "Context...\nAnswer: Paris.".data).1 (by decide),
   (claim_C3 "Paris.".data).2 (by decide)⟩

/-- C8 (counterexample): the claim says the full-sequence (T5) variant's
answer is returned verbatim; `HFWrapper._call` (api/query.py line 44)
strips it, so `"Paris. "` is returned as `"Paris."`. -/
theorem claim_C8_counterexample :
    hfWrapperCall true "Paris. ".data "Q".data ≠ "Paris. ".data := by
  decide

/-- C8 (amended): for the prompt-echoing variant the wrapper returns the
suffix beyond the prompt's length trimmed of surrounding whitespace; for
the full-sequence variant it returns the answer trimmed of surrounding
whitespace. -/
theorem claim_C8 (prompt cont out : List Char) :
    hfWrapperCall false (prompt ++ cont) prompt = pyStrip cont ∧
    hfWrapperCall true out prompt = pyStrip out := by
  constructor
  · rw [hfWrapperCall, if_neg (by simp), List.drop_left]
  · rw [hfWrapperCall, if_pos rfl]

/-- C5: with no vector index at the persisted path, the `/query` endpoint
returns the handled `{status: "error", message: ...}` object (it is a
total function, hence never throws), and `load_vectorstore` yields `None`
rather than an exception. -/
theorem claim_C5 (chain : Chain) (env : Env) (req : QueryRequest)
    (h : env.vectorstoreExists = false) :
    query chain env req = .error noStoreMsg ∧ load_vectorstore env = .ok none := by
  have hr : get_retriever env = none := by
    rw [get_retriever, if_pos (by rw [h]; rfl)]
  constructor
  · rw [query, hr]
  · rw [load_vectorstore, if_pos (by rw [h]; rfl)]

/-- C5 (witness): a concrete world with no vector store. -/
theorem claim_C5_witness :
    query (.message "m") baseEnv ⟨"q", false⟩ = .error noStoreMsg ∧
    load_vectorstore baseEnv = .ok none :=
  claim_C5 (.message "m") baseEnv ⟨"q", false⟩ rfl

/-- C9: a provider string outside the supported set makes `get_llm` raise
a (400) error whose detail names the unsupported provider. -/
theorem claim_C9 (env : Env) (p : String)
    (hp : resolvedProvider env = some p)
    (h1 : p ≠ "local") (h2 : p ≠ "hf_free") (h3 : p ≠ "hf_paid") (h4 : p ≠ "azure") :
    (get_llm env).1 = .error ⟨400, "Unsupported LLM provider: " ++ p⟩ := by
  rw [get_llm]
  simp only [hp, pyShow]
  rw [if_neg (by simp [h1]), if_neg (by simp [h2, h3]), if_neg (by simp [h4])]

/-- C9 (witness): provider `"foo"`. -/
theorem claim_C9_witness :
    (get_llm envC9).1 = .error ⟨400, "Unsupported LLM provider: " ++ "foo"⟩ :=
  claim_C9 envC9 "foo" rfl (by decide) (by decide) (by decide) (by decide)

/-- C6: with `include_sources = false` the response never carries a
`sources` field; with `include_sources = true` a successful response's
`sources` field is exactly the retrieved passage texts in rank order
(what the freshly loaded retriever returns for the question). -/
theorem claim_C6 (chain : Chain) (env : Env) (req : QueryRequest) :
    (req.include_sources = false → (query chain env req).sourcesField = none) ∧
    (req.include_sources = true → ∀ r, get_retriever env = some r →
      (query chain env req).isOk = true →
      (query chain env req).sourcesField = some (r.store.docs req.question)) := by
  rw [query]
  cases hg : get_retriever env with
  | none => simp [Response.sourcesField, Response.isOk]
  | some r0 =>
    cases hi : chainInvoke env chain req.question with
    | error e => simp [Response.sourcesField, Response.isOk]
    | ok raw =>
      constructor
      · intro hf
        simp [hf, Response.sourcesField]
      · intro ht r hr hok
        injection hr with hr
        subst hr
        simp [ht, Response.sourcesField]

/-- C6 (witness): both flags against a store retrieving two passages. -/
theorem claim_C6_witness :
    (query (.message "hello") envC6 ⟨"q", false⟩).sourcesField = none ∧
    (query (.message "hello") envC6 ⟨"q", true⟩).sourcesField = some ["p1", "p2"] :=
  ⟨(claim_C6 (.message "hello") envC6 ⟨"q", false⟩).1 rfl,
   (claim_C6 (.message "hello") envC6 ⟨"q", true⟩).2 rfl ⟨storeC6, 4⟩ rfl rfl⟩

/-- C10: the `/rag` endpoint returns the "No question provided" error
object when the nested question is missing or empty; for a non-empty
question it returns an `output` value holding either the `/query`
answer or `"Error: "` followed by the `/query` error message (and it is a
total function, hence never throws). -/
theorem claim_C10 (chain : Chain) (env : Env) (input : RagInput) :
    (pyTruthy input.question = false →
      rag chain env input = .err "No question provided") ∧
    (∀ q, input.question = some q → q ≠ "" →
      ∃ s, rag chain env input = .output s ∧
        ((∃ src, query chain env ⟨q, false⟩ = .ok s src) ∨
         (∃ m, query chain env ⟨q, false⟩ = .error m ∧ s = "Error: " ++ m))) := by
  constructor
  · intro h
    rw [rag, if_pos (by rw [h]; rfl)]
  · intro q hq hne
    have ht : pyTruthy input.question = true := by
      rw [hq, pyTruthy]
      simpa using hne
    rw [rag, if_neg (by rw [ht]; simp), hq]
    simp only [Option.getD_some]
    cases hres : query chain env ⟨q, false⟩ with
    | ok a src => exact ⟨a, rfl, .inl ⟨src, rfl⟩⟩
    | error m => exact ⟨"Error: " ++ m, rfl, .inr ⟨m, rfl, rfl⟩⟩

/-- C10 (witness): the missing-question and answered cases concretely. -/
theorem claim_C10_witness :
    rag (.message "hi") envC10 ⟨none⟩ = .err "No question provided" ∧
    rag (.message "hi") envC10 ⟨some "q"⟩ = .output "hi" := by
  refine ⟨(claim_C10 (.message "hi") envC10 ⟨none⟩).1 rfl, ?_⟩
  obtain ⟨s, hs, hd⟩ := (claim_C10 (.message "hi") envC10 ⟨some "q"⟩).2 "q" rfl (by decide)
  rcases hd with ⟨src, hok⟩ | ⟨m, herr, _⟩
  · have hq : query (.message "hi") envC10 ⟨"q", false⟩ = .ok "hi" none := rfl
    rw [hq] at hok
    injection hok with h1 h2
    rw [hs, ← h1]
  · have hq : query (.message "hi") envC10 ⟨"q", false⟩ = .ok "hi" none := rfl
    rw [hq] at herr
    exact absurd herr (by simp)

/-- C7: the embedding resolver is exactly the fallback ladder
`[azure-ada, azure-deployment (both only when the file config selects
azure with a credential), local HuggingFace, hosted OpenAI, deterministic
384-dimensional stub]`: each step is advanced past only on exception and
the first success is returned; the final stub always succeeds, so the
resolver (a total function) never fails. -/
theorem claim_C7 (env : Env) : firstOk (embLadder env) = some (get_embeddings env) := by
  rw [get_embeddings, embLadder]
  cases env.configFile with
  | absent =>
    cases env.hfEmb <;> cases env.openaiEmb <;> simp [firstOk]
  | unreadable =>
    cases env.hfEmb <;> cases env.openaiEmb <;> simp [firstOk]
  | noLLMConfig =>
    cases env.hfEmb <;> cases env.openaiEmb <;> simp [firstOk]
  | withLLM c =>
    by_cases hz : (pyTruthy c.api_token && (c.llm_provider == some "azure")) = true
    · simp only [hz]
      cases env.azureEmbAda <;> cases env.azureEmbDep c.azure_deployment <;>
        cases env.hfEmb <;> cases env.openaiEmb <;> simp [firstOk]
    · rw [Bool.not_eq_true] at hz
      simp only [hz]
      cases env.hfEmb <;> cases env.openaiEmb <;> simp [firstOk]

/-- Dispatch of `get_llm` to its huggingface branch. -/
theorem get_llm_eq_hf (env : Env)
    (hp : resolvedProvider env = some "hf_free" ∨ resolvedProvider env = some "hf_paid") :
    get_llm env = get_llm_hf env (resolvedModel env) (strippedToken env) := by
  rw [get_llm]
  rcases hp with h | h <;> simp [h]

/-- C2 (counterexample): the claim says `get_llm` never throws for the
`LocalInference` provider; in the code (api/query.py line 110) a local
pipeline construction failure raises an `HTTPException`. -/
theorem claim_C2_counterexample :
    resolvedProvider envC2 = some "local" ∧
    (get_llm envC2).1 = .error ⟨500, "Error loading local model: " ++ "boom"⟩ :=
  ⟨rfl, rfl⟩

/-- C2 (amended): only the `hf_free`/`hf_paid` variants degrade to a
working fallback — and even then only provided the fallback pipeline
construction itself succeeds; `local` (like `azure`) surfaces its
construction error to the orchestrator. -/
theorem claim_C2 (env : Env)
    (hp : resolvedProvider env = some "hf_free" ∨ resolvedProvider env = some "hf_paid")
    (hfb : env.pipelineOutcome "text2text-generation" (some fallbackModel) = .ok ()) :
    ∃ b, (get_llm env).1 = .ok b := by
  rw [get_llm_eq_hf env hp, get_llm_hf]
  by_cases hc : (!pyTruthy (strippedToken env) || resolvedModel env == some gatedModel) = true
  · refine ⟨flanWrapper, ?_⟩
    rw [if_pos hc, hfb]
  · rw [Bool.not_eq_true] at hc
    cases hh : env.hubOutcome (resolvedModel env) ((strippedToken env).getD "") with
    | ok u =>
      refine ⟨.hfHub (resolvedModel env) ((strippedToken env).getD ""), ?_⟩
      rw [if_neg (by rw [hc]; simp)]
    | error e =>
      refine ⟨flanWrapper, ?_⟩
      rw [if_neg (by rw [hc]; simp)]
      simp [hfb]

/-- C2 (witness): `hf_free` requesting the gated model with a working
fallback pipeline resolves to a backend instead of raising. -/
theorem claim_C2_witness : ∃ b, (get_llm envC2w).1 = .ok b :=
  claim_C2 envC2w (Or.inl rfl) rfl

/-- C4: under `hf_free`/`hf_paid`, (a) with no credential or with the
gated Mixtral model, no remote call is ever attempted and (provided its
construction succeeds) the resolver returns the safe default local model
(`google/flan-t5-base` as a T5 wrapper); (b) with a credential and a
non-gated model the remote API is called first, and on any exception the
resolver falls back to the same safe default local model. -/
theorem claim_C4 (env : Env)
    (hp : resolvedProvider env = some "hf_free" ∨ resolvedProvider env = some "hf_paid") :
    ((pyTruthy (strippedToken env) = false ∨ resolvedModel env = some gatedModel) →
      (get_llm env).2.all (fun e => !e.isRemoteHub) = true ∧
      (env.pipelineOutcome "text2text-generation" (some fallbackModel) = .ok () →
        (get_llm env).1 = .ok flanWrapper)) ∧
    (pyTruthy (strippedToken env) = true → resolvedModel env ≠ some gatedModel →
      (get_llm env).2.head? =
        some (.hubCall (resolvedModel env) ((strippedToken env).getD "")) ∧
      (∀ e, env.hubOutcome (resolvedModel env) ((strippedToken env).getD "") = .error e →
        env.pipelineOutcome "text2text-generation" (some fallbackModel) = .ok () →
        (get_llm env).1 = .ok flanWrapper)) := by
  rw [get_llm_eq_hf env hp, get_llm_hf]
  constructor
  · intro hcond
    have hc : (!pyTruthy (strippedToken env) || resolvedModel env == some gatedModel) = true := by
      rcases hcond with h | h
      · simp [h]
      · simp [h]
    rw [if_pos hc]
    cases hpo : env.pipelineOutcome "text2text-generation" (some fallbackModel) with
    | ok u =>
      constructor
      · simp [CallEvent.isRemoteHub]
      · intro _; rfl
    | error e0 =>
      constructor
      · simp [CallEvent.isRemoteHub]
      · intro hfb
        exact absurd hfb (by simp)
  · intro htk hgm
    have hc : (!pyTruthy (strippedToken env) || resolvedModel env == some gatedModel) = false := by
      simp only [htk, Bool.not_true, Bool.false_or]
      exact beq_eq_false_iff_ne.mpr hgm
    rw [if_neg (by rw [hc]; simp)]
    cases hh : env.hubOutcome (resolvedModel env) ((strippedToken env).getD "") with
    | ok u =>
      constructor
      · simp
      · intro e he _
        exact absurd he (by simp)
    | error e0 =>
      constructor
      · cases env.pipelineOutcome "text2text-generation" (some fallbackModel) <;> simp
      · intro e he hfb
        simp [hfb]

/-- C4 (witness): both branches concretely — `hf_free` with no token
resolves to the flan-t5 wrapper without any remote attempt; `hf_paid`
with a failing remote call attempts the hub first and falls back to the
flan-t5 wrapper. -/
theorem claim_C4_witness :
    ((get_llm envC4a).2.all (fun e => !e.isRemoteHub) = true ∧
      (get_llm envC4a).1 = .ok flanWrapper) ∧
    ((get_llm envC4b).2.head? = some (.hubCall (some "m") "tk") ∧
      (get_llm envC4b).1 = .ok flanWrapper) := by
  constructor
  · have h := (claim_C4 envC4a (Or.inl rfl)).1 (Or.inl rfl)
    exact ⟨h.1, h.2 rfl⟩
  · have h := (claim_C4 envC4b (Or.inr rfl)).2 rfl (by decide)
    exact ⟨h.1, h.2 "denied" rfl rfl⟩

set_option maxRecDepth 20000 in
/-- C1 (counterexample): the module-level `rag_chain` is built once when
the module loads (api/query.py line 270) and `/query` invokes it, so
after a configuration and index change (startup world `env0` → request
world `env1`) the answer is produced by the startup-time backend and
the startup-time store (`"B0S0"`), even though the request-time
resolution yields the new backend and the reloaded store, which would
have produced `"B1S1"`. -/
theorem claim_C1_counterexample :
    (get_llm env1).1 = .ok backend1 ∧
    backend1 ≠ backend0 ∧
    get_retriever env1 = some ⟨store1, 4⟩ ∧
    query (create_rag_chain env0) env1 ⟨"q", true⟩ = .ok "B0S0" (some ["d1"]) ∧
    env1.generate backend1 (assemblePrompt "q" (format_docs (store1.docs "q"))) =
      .ok "B1S1" ∧
    ("B0S0" : String) ≠ "B1S1" := by
  refine ⟨rfl, by decide, rfl, rfl, rfl, by decide⟩

/-- C1 (amended): only the index-existence check and the returned
`sources` are recomputed from a fresh request-time load; the answer is
produced by the chain constructed at import time, using the retriever and
generation backend captured then, so a configuration or index save is not
visible to the answer path of the next query. -/
theorem claim_C1 (env₀ env₁ : Env) (req : QueryRequest) (r₀ r₁ : Retriever)
    (llm₀ : LLMBackend)
    (hchain : create_rag_chain env₀ = .rag r₀ llm₀)
    (hr : get_retriever env₁ = some r₁) :
    query (create_rag_chain env₀) env₁ req =
      match env₁.generate llm₀
          (assemblePrompt req.question (format_docs (r₀.store.docs req.question))) with
      | .error m => .error m
      | .ok raw =>
        .ok (extract_answer raw)
          (if req.include_sources then some (r₁.store.docs req.question) else none) := by
  rw [hchain, query, hr]
  cases hgen : env₁.generate llm₀
      (assemblePrompt req.question (format_docs (r₀.store.docs req.question))) with
  | error m => simp [chainInvoke, hgen]
  | ok raw => cases hb : req.include_sources <;> simp [chainInvoke, hgen, hb]

set_option maxRecDepth 20000 in
/-- C1 (witness): the amended claim at the concrete import/request
worlds. -/
theorem claim_C1_witness :
    query (create_rag_chain env0) env1 ⟨"q", true⟩ =
      match env1.generate backend0
          (assemblePrompt "q" (format_docs (store0.docs "q"))) with
      | .error m => Response.error m
      | .ok raw =>
        .ok (extract_answer raw) (if true then some (store1.docs "q") else none) :=
  claim_C1 env0 env1 ⟨"q", true⟩ ⟨store0, 4⟩ ⟨store1, 4⟩ backend0 rfl rfl

end NxAutoRAG
